import Mathlib

/-!
Verification of the LaundryPro order-intake backend.

The development shallowly embeds the hardened implementations found in the
repository (phone normalizer, message formatters, the two messaging-gateway
send operations, and the HTTP order-intake handler) as executable Lean
definitions, and settles the specification claims against them.

Modelling conventions:
  * JavaScript strings are Lean `String`s manipulated through their
    underlying `List Char`; `replace`, `trim`, `substring` and the regular
    expressions used by the source are embedded as explicit list operations.
  * External effects (the Twilio SDK call, the webhook `fetch`, the current
    time, `Date` parsing and rendering) are parameters of the embedded
    functions; a thrown JavaScript exception is modelled with `Except.error`
    and the source's `try/catch` blocks become `match` on that value.
  * Environment variables are records of `Option String` fields; JavaScript
    falsiness of `undefined`/`""` is modelled explicitly.
-/

set_option maxRecDepth 8192

namespace LaundryPro

/-- JavaScript whitespace characters relevant to `\s` and `trim` for the
inputs in scope. -/
def isJsWs (c : Char) : Bool :=
  c = ' ' || c = '\t' || c = '\n' || c = '\r'

/-- The character class `[\s\-()]` used by `normalizePhoneNumber`. -/
def isPhoneSep (c : Char) : Bool :=
  isJsWs c || c = '-' || c = '(' || c = ')'

/-- `phone.replace(/[\s\-()]/g, "")` on the underlying character list. -/
def stripSeps (s : String) : List Char :=
  s.data.filter (fun c => !(isPhoneSep c))

/-- `to.replace(/[\s+\-()]/g, "")` (the webhook send also removes every
`+`). -/
def stripPlusSeps (s : String) : List Char :=
  s.data.filter (fun c => !(isPhoneSep c || c = '+'))

/-- `String.prototype.trim()`. -/
def trimChars (l : List Char) : List Char :=
  ((l.dropWhile isJsWs).reverse.dropWhile isJsWs).reverse

/-- `s.trim()` as a `String` operation. -/
def jsTrim (s : String) : String := ⟨trimChars s.data⟩

/-- `s.substring(0, n)`. -/
def jsTake (s : String) (n : Nat) : String := ⟨s.data.take n⟩

/-- `replace(/^\+/, "")`: drop a single leading `+`. -/
def dropLeadingPlus : List Char → List Char
  | '+' :: cs => cs
  | cs => cs

/-- Boolean prefix test on character lists. -/
def listPrefix : List Char → List Char → Bool
  | [], _ => true
  | _ :: _, [] => false
  | a :: as, b :: bs => a = b && listPrefix as bs

/-- Boolean substring test on character lists. -/
def listInfix (pat : List Char) : List Char → Bool
  | [] => listPrefix pat []
  | c :: rest => listPrefix pat (c :: rest) || listInfix pat rest

/-- `s.includes(pat)`. -/
def strIncludes (s pat : String) : Bool := listInfix pat.data s.data

/-- `Array.prototype.join(sep)` over already-rendered strings. -/
def joinSep (sep : String) : List String → String
  | [] => ""
  | [s] => s
  | s :: rest => s ++ sep ++ joinSep sep rest

/-- The regular expression `/^\d{lo,hi}$/`. -/
def digitsLen (l : List Char) (lo hi : Nat) : Bool :=
  l.all Char.isDigit && decide (lo ≤ l.length) && decide (l.length ≤ hi)

/-- The cleaned character list `normalizePhoneNumber` works on:
`phone.replace(/[\s\-()]/g, "").trim()` followed by dropping one leading
`+`. -/
def cleanedPhone (phone : String) : List Char :=
  dropLeadingPlus (jsTrim ⟨stripSeps phone⟩).data

/-- `if (cleaned.startsWith("0") && cleaned.length === 10) cleaned =
defaultCountryCode + cleaned.substring(1)`. -/
def normStep1 (cc : String) (cleaned : List Char) : List Char :=
  if cleaned.headD 'x' = '0' ∧ cleaned.length = 10 then cc.data ++ cleaned.tail
  else cleaned

/-- `if (cleaned.length === 9 && /^\d{9}$/.test(cleaned)) cleaned =
defaultCountryCode + cleaned`. -/
def normStep2 (cc : String) (c1 : List Char) : List Char :=
  if c1.length = 9 ∧ c1.all Char.isDigit = true then cc.data ++ c1
  else c1

/-- The hardened `normalizePhoneNumber` (api/whatsapp.ts): validates and
normalizes a phone number against a default country code, returning `none`
for `Invalid`. -/
def normalizePhoneNumber (phone : String) (defaultCountryCode : String) : Option String :=
  -- `if (!phone || typeof phone !== "string") return null`
  if phone = "" then none
  else
    let cleaned := cleanedPhone phone
    -- `if (!/^\d{9,15}$/.test(cleaned)) return null`
    if !(digitsLen cleaned 9 15) then none
    else
      let c2 := normStep2 defaultCountryCode (normStep1 defaultCountryCode cleaned)
      -- `if (!/^\d{10,15}$/.test(cleaned)) return null`
      if digitsLen c2 10 15 then some ⟨c2⟩ else none

theorem digitsLen_iff (l : List Char) (lo hi : Nat) :
    digitsLen l lo hi = true ↔ (l.all Char.isDigit = true ∧ lo ≤ l.length ∧ l.length ≤ hi) := by
  simp [digitsLen, Bool.and_assoc, and_assoc]

theorem data_250 : ("250" : String).data = ['2', '5', '0'] := rfl

/-- Once the cleaned string passes `/^\d{9,15}$/`, the two local-format
rewrites always land in `/^\d{10,15}$/`. -/
theorem digitsLen_normSteps (cleaned : List Char) (h : digitsLen cleaned 9 15 = true) :
    digitsLen (normStep2 "250" (normStep1 "250" cleaned)) 10 15 = true := by
  rw [digitsLen_iff] at h
  obtain ⟨hall, h9, h15⟩ := h
  rw [digitsLen_iff]
  unfold normStep1
  split
  · -- leading `0` with 10 digits: the rewrite yields 12 digits
    rename_i hcond
    cases cleaned with
    | nil => simp at hcond
    | cons c cs =>
      simp only [List.tail_cons, data_250]
      have hcs : cs.all Char.isDigit = true := by
        rw [List.all_cons, Bool.and_eq_true] at hall; exact hall.2
      have hlen : cs.length = 9 := by
        have := hcond.2; simp [List.length_cons] at this; omega
      unfold normStep2
      split
      · rename_i hc2
        simp [List.length_append, hlen] at hc2
      · refine ⟨?_, ?_, ?_⟩
        · simp [List.all_append, List.all_cons, hcs]
        · simp [List.length_append, hlen]
        · simp [List.length_append, hlen]
  · -- no trunk-prefix rewrite
    unfold normStep2
    split
    · rename_i hc2
      refine ⟨?_, ?_, ?_⟩
      · simp [data_250, List.all_append, List.all_cons, hall]
      · simp [List.length_append, hc2.1]
      · simp [List.length_append, hc2.1]
    · rename_i hc2
      refine ⟨hall, ?_, h15⟩
      rcases Nat.lt_or_ge 9 cleaned.length with hlt | hge
      · omega
      · exfalso
        exact hc2 ⟨by omega, hall⟩

theorem normSteps_ten (cleaned : List Char) (hall : cleaned.all Char.isDigit = true)
    (h10 : cleaned.length = 10) (h0 : cleaned.headD 'x' = '0') :
    normStep2 "250" (normStep1 "250" cleaned) = '2' :: '5' :: '0' :: cleaned.tail := by
  have htail : cleaned.tail.length = 9 := by
    cases cleaned with
    | nil => simp at h10
    | cons a l => simp only [List.tail_cons]; simp at h10; omega
  unfold normStep1
  rw [if_pos ⟨h0, h10⟩]
  unfold normStep2
  have hcond : ¬(("250".data ++ cleaned.tail).length = 9 ∧
      ("250".data ++ cleaned.tail).all Char.isDigit = true) := by
    rw [data_250]
    intro hcontra
    simp [List.length_append, htail] at hcontra
  rw [if_neg hcond, data_250]
  rfl

theorem normSteps_nine (cleaned : List Char) (hall : cleaned.all Char.isDigit = true)
    (h9 : cleaned.length = 9) :
    normStep2 "250" (normStep1 "250" cleaned) = '2' :: '5' :: '0' :: cleaned := by
  unfold normStep1
  have hc1 : ¬(cleaned.headD 'x' = '0' ∧ cleaned.length = 10) := by
    intro hcontra; omega
  rw [if_neg hc1]
  unfold normStep2
  rw [if_pos ⟨h9, hall⟩, data_250]
  rfl

theorem cleanedPhone_empty : cleanedPhone "" = [] := rfl

/-- C2: for every input string with default country code `"250"`,
`normalizePhoneNumber` returns `Invalid` (`none`) exactly when the cleaned
string (separators stripped, a leading `+` dropped) is not all digits or of
length outside `[9, 15]`; a 10-digit cleaned string with a leading `0` has
the `0` replaced by `250`; a 9-digit cleaned string gets `250` prepended;
every non-`none` result is an all-digit string of length in `[10, 15]`; and
`"0792875310"` and `"792875310"` both map to `"250792875310"`. -/
theorem claim_C2_normalizePhoneNumber (p : String) :
    (normalizePhoneNumber p "250" = none ↔ digitsLen (cleanedPhone p) 9 15 = false) ∧
    ((cleanedPhone p).all Char.isDigit = true → (cleanedPhone p).length = 10 →
      (cleanedPhone p).headD 'x' = '0' →
      normalizePhoneNumber p "250" = some ⟨'2' :: '5' :: '0' :: (cleanedPhone p).tail⟩) ∧
    ((cleanedPhone p).all Char.isDigit = true → (cleanedPhone p).length = 9 →
      normalizePhoneNumber p "250" = some ⟨'2' :: '5' :: '0' :: cleanedPhone p⟩) ∧
    (∀ r, normalizePhoneNumber p "250" = some r →
      r.data.all Char.isDigit = true ∧ 10 ≤ r.data.length ∧ r.data.length ≤ 15) ∧
    normalizePhoneNumber "0792875310" "250" = some "250792875310" ∧
    normalizePhoneNumber "792875310" "250" = some "250792875310" := by
  refine ⟨?_, ?_, ?_, ?_, by decide, by decide⟩
  · by_cases hp : p = ""
    · subst hp
      constructor
      · intro _; decide
      · intro _; simp [normalizePhoneNumber]
    · by_cases hd : digitsLen (cleanedPhone p) 9 15 = true
      · have hfin := digitsLen_normSteps _ hd
        simp [normalizePhoneNumber, hp, hd, hfin]
      · rw [Bool.not_eq_true] at hd
        simp [normalizePhoneNumber, hp, hd]
  · intro hall h10 h0
    have hp : p ≠ "" := by
      intro hp; subst hp
      rw [cleanedPhone_empty] at h10; simp at h10
    have hd : digitsLen (cleanedPhone p) 9 15 = true := by
      rw [digitsLen_iff]; exact ⟨hall, by omega, by omega⟩
    have hstep := normSteps_ten (cleanedPhone p) hall h10 h0
    have hfin := digitsLen_normSteps _ hd
    rw [hstep] at hfin
    simp [normalizePhoneNumber, hp, hd, hstep, hfin]
  · intro hall h9
    have hp : p ≠ "" := by
      intro hp; subst hp
      rw [cleanedPhone_empty] at h9; simp at h9
    have hd : digitsLen (cleanedPhone p) 9 15 = true := by
      rw [digitsLen_iff]; exact ⟨hall, by omega, by omega⟩
    have hstep := normSteps_nine (cleanedPhone p) hall h9
    have hfin := digitsLen_normSteps _ hd
    rw [hstep] at hfin
    simp [normalizePhoneNumber, hp, hd, hstep, hfin]
  · intro r hr
    by_cases hp : p = ""
    · subst hp; simp [normalizePhoneNumber] at hr
    · by_cases hd : digitsLen (cleanedPhone p) 9 15 = true
      · have hfin := digitsLen_normSteps _ hd
        simp only [normalizePhoneNumber, if_neg hp, hd, Bool.not_true, Bool.false_eq_true,
          if_false, if_true, hfin, Option.some.injEq] at hr
        rw [digitsLen_iff] at hfin
        subst hr
        exact hfin
      · rw [Bool.not_eq_true] at hd
        simp [normalizePhoneNumber, hp, hd] at hr

/-- Witness for C2: the local trunk-prefix branch evaluated at
`"0792875310"`. -/
theorem claim_C2_normalizePhoneNumber_witness :
    normalizePhoneNumber "0792875310" "250" =
      some ⟨'2' :: '5' :: '0' :: (cleanedPhone "0792875310").tail⟩ :=
  (claim_C2_normalizePhoneNumber "0792875310").2.1 (by decide) (by decide) (by decide)

/-! ## Data model (shared/api.ts) -/

/-- `OrderItem`; after validation `quantity` is a (positive) integer. -/
structure OrderItem where
  name : String
  quantity : Int
deriving DecidableEq

/-- `PickupOrderRequest`. -/
structure PickupOrderRequest where
  customerName : String
  pickupAddress : String
  pickupDateTime : Option String
  items : List OrderItem
  customerNotes : Option String
  customerPhone : Option String
deriving DecidableEq

/-- `WhatsAppResponse` (the spec's `MessagingResult`). -/
structure WhatsAppResponse where
  success : Bool
  messageId : Option String
  error : Option String
deriving DecidableEq

/-! ## Message formatter (api/whatsapp.ts)

`new Date(...)` parsing plus `toLocaleString` rendering is modelled by a
parameter `parseDate : String → Option String` returning the rendered date,
or `none` when `Number.isNaN(date.getTime())` (the unparseable case; the
surrounding `try/catch` also lands there).  The current-time rendering
`new Date().toLocaleString()` is a parameter `now : String`. -/

/-- One bullet line: `` `  • ${item.quantity}x ${item.name}` ``. -/
def itemLine (item : OrderItem) : String :=
  "  • " ++ toString item.quantity ++ "x " ++ item.name

/-- `order.items.map(...).join("\n")`. -/
def itemsSection (order : PickupOrderRequest) : String :=
  joinSep "\n" (order.items.map itemLine)

/-- The `pickupTimeFormatted` IIFE inside `formatPickupOrderMessage`. -/
def pickupTimeFormatted (parseDate : String → Option String)
    (order : PickupOrderRequest) : String :=
  -- `if (!order.pickupDateTime) return "Not specified"` (undefined or "")
  if order.pickupDateTime.getD "" = "" then "Not specified"
  else
    match parseDate (order.pickupDateTime.getD "") with
    | none => order.pickupDateTime.getD ""
    | some rendered => rendered

/-- The optional notes block. -/
def notesSection (order : PickupOrderRequest) : String :=
  -- `if (order.customerNotes && order.customerNotes.trim())`
  match order.customerNotes with
  | none => ""
  | some s => if s = "" ∨ jsTrim s = "" then "" else "\n📝 *Notes:*\n" ++ jsTrim s ++ "\n"

/-- Everything `formatPickupOrderMessage` appends before the trailing
`_Order received at ..._` line. -/
def pickupBody (parseDate : String → Option String) (order : PickupOrderRequest) : String :=
  "🧺 *NEW PICKUP ORDER*\n\n📋 *Customer:* " ++ order.customerName ++
  "\n📍 *Address:* " ++ order.pickupAddress ++
  "\n⏰ *Preferred Pickup:* " ++ pickupTimeFormatted parseDate order ++
  "\n\n📦 *Items:*\n" ++ itemsSection order ++ "\n" ++ notesSection order

/-- The hardened `formatPickupOrderMessage`. -/
def formatPickupOrderMessage (parseDate : String → Option String) (now : String)
    (order : PickupOrderRequest) : String :=
  pickupBody parseDate order ++ ("\n_Order received at " ++ (now ++ "_"))

/-- `formatCustomerConfirmationMessage`. -/
def formatCustomerConfirmationMessage (parseDate : String → Option String)
    (customerName pickupDateTime : String) : String :=
  let pickupTime :=
    if pickupDateTime = "" then "your preferred time"
    else
      match parseDate pickupDateTime with
      | none => pickupDateTime
      | some rendered => rendered
  "✅ *Order Confirmed*\n\nHi " ++ customerName ++
  "! 👋\n\nThank you for choosing LaundryPro! Your pickup order has been received.\n\n📅 *Scheduled Pickup:* " ++
  pickupTime ++
  "\n\nWe\x27ll send you a reminder before pickup. If you need to make any changes, please contact us.\n\nThank you! 🙏"

theorem data_append (s t : String) : (s ++ t).data = s.data ++ t.data := rfl

/-- C8: the output of `formatPickupOrderMessage` contains the items section
— one line per item, in input order — as a contiguous block; an
unparseable non-empty `pickupDateTime` string appears verbatim in the
output; an absent `pickupDateTime` yields the literal `"Not specified"`.
(The function is total, so it cannot throw.) -/
theorem claim_C8_formatPickupOrderMessage (parseDate : String → Option String)
    (now : String) (order : PickupOrderRequest) :
    ((order.items.map itemLine).length = order.items.length ∧
      ∃ a b, (formatPickupOrderMessage parseDate now order).data =
        a ++ (itemsSection order).data ++ b) ∧
    (∀ dt, order.pickupDateTime = some dt → dt ≠ "" → parseDate dt = none →
      ∃ a b, (formatPickupOrderMessage parseDate now order).data = a ++ dt.data ++ b) ∧
    (order.pickupDateTime = none →
      ∃ a b, (formatPickupOrderMessage parseDate now order).data =
        a ++ ("Not specified" : String).data ++ b) := by
  refine ⟨⟨List.length_map _ _, ?_⟩, ?_, ?_⟩
  · refine ⟨("🧺 *NEW PICKUP ORDER*\n\n📋 *Customer:* " ++ order.customerName ++
      "\n📍 *Address:* " ++ order.pickupAddress ++ "\n⏰ *Preferred Pickup:* " ++
      pickupTimeFormatted parseDate order ++ "\n\n📦 *Items:*\n").data,
      ("\n" ++ notesSection order ++ ("\n_Order received at " ++ (now ++ "_"))).data, ?_⟩
    simp [formatPickupOrderMessage, pickupBody, data_append, List.append_assoc]
  · intro dt hdt hne hparse
    have hfmt : pickupTimeFormatted parseDate order = dt := by
      simp [pickupTimeFormatted, hdt, hne, hparse]
    refine ⟨("🧺 *NEW PICKUP ORDER*\n\n📋 *Customer:* " ++ order.customerName ++
      "\n📍 *Address:* " ++ order.pickupAddress ++ "\n⏰ *Preferred Pickup:* ").data,
      ("\n\n📦 *Items:*\n" ++ itemsSection order ++ "\n" ++ notesSection order ++
        ("\n_Order received at " ++ (now ++ "_"))).data, ?_⟩
    simp [formatPickupOrderMessage, pickupBody, hfmt, data_append, List.append_assoc]
  · intro hnone
    have hfmt : pickupTimeFormatted parseDate order = "Not specified" := by
      simp [pickupTimeFormatted, hnone]
    refine ⟨("🧺 *NEW PICKUP ORDER*\n\n📋 *Customer:* " ++ order.customerName ++
      "\n📍 *Address:* " ++ order.pickupAddress ++ "\n⏰ *Preferred Pickup:* ").data,
      ("\n\n📦 *Items:*\n" ++ itemsSection order ++ "\n" ++ notesSection order ++
        ("\n_Order received at " ++ (now ++ "_"))).data, ?_⟩
    simp [formatPickupOrderMessage, pickupBody, hfmt, data_append, List.append_assoc]

/-- Witness for C8: the unparseable-date branch evaluated on a concrete
order whose `pickupDateTime` is `"not-a-date"`. -/
theorem claim_C8_formatPickupOrderMessage_witness :
    ∃ a b, (formatPickupOrderMessage (fun _ => none) "1/1/2024, 10:00:00 AM"
      ⟨"Amahoro", "KG 5 Ave", some "not-a-date", [⟨"Shirt", 2⟩], none, none⟩).data =
      a ++ ("not-a-date" : String).data ++ b :=
  (claim_C8_formatPickupOrderMessage (fun _ => none) "1/1/2024, 10:00:00 AM"
    ⟨"Amahoro", "KG 5 Ave", some "not-a-date", [⟨"Shirt", 2⟩], none, none⟩).2.1
    "not-a-date" rfl (by decide) rfl

/-- C9: two calls of `formatPickupOrderMessage` on the identical order share
the entire customer/address/items/notes body; only the trailing
`_Order received at ..._` line differs with the composition time. -/
theorem claim_C9_formatPickupOrderMessage_idempotent (parseDate : String → Option String)
    (now1 now2 : String) (order : PickupOrderRequest) :
    ∃ pre, formatPickupOrderMessage parseDate now1 order =
        pre ++ ("\n_Order received at " ++ (now1 ++ "_")) ∧
      formatPickupOrderMessage parseDate now2 order =
        pre ++ ("\n_Order received at " ++ (now2 ++ "_")) :=
  ⟨pickupBody parseDate order, rfl, rfl⟩

/-! ## Messaging gateway (api/whatsapp.ts)

Environment variables are `Option String` fields (`none` = unset); a set
but empty variable is also JavaScript-falsy, so both are checked.  A
rejected promise / thrown `Error` is `Except.error` carrying
`error.message`; the `try/catch` blocks of the source become `match`. -/

/-- JavaScript falsiness of an optional string. -/
def jsFalsy (o : Option String) : Bool := o.getD "" = ""

/-- The Twilio environment (`TWILIO_ACCOUNT_SID`, `TWILIO_AUTH_TOKEN`,
`TWILIO_WHATSAPP_NUMBER`). -/
structure TwilioEnv where
  accountSid : Option String
  authToken : Option String
  whatsAppNumber : Option String

/-- `getTwilioClient`: throws (models as `Except.error`) listing the missing
variables, else yields the sending number (the SDK client itself is opaque
and modelled by the `create` parameter of the send). -/
def getTwilioClient (env : TwilioEnv) : Except String String :=
  if jsFalsy env.accountSid || jsFalsy env.authToken || jsFalsy env.whatsAppNumber then
    Except.error
      ("Missing required Twilio environment variables: " ++
        joinSep ", "
          ((if jsFalsy env.accountSid then ["TWILIO_ACCOUNT_SID"] else []) ++
           (if jsFalsy env.authToken then ["TWILIO_AUTH_TOKEN"] else []) ++
           (if jsFalsy env.whatsAppNumber then ["TWILIO_WHATSAPP_NUMBER"] else [])) ++
        ". Please set these in your deployment environment variables.")
  else Except.ok (env.whatsAppNumber.getD "")

/-- Outcome of `Promise.race([client.messages.create(...), timeout])`:
either the resolved response's `sid` (`none` models a null response or a
response without a truthy `sid`), or a rejection / thrown `Error` — the 30 s
timeout rejects with its fixed message. -/
inductive TwilioOutcome
  | ok (sid : Option String)
  | fault (msg : String)

/-- The fixed message of the 30-second timeout rejection. -/
def twilioTimeoutMsg : String := "Request timeout: Twilio API call exceeded 30 seconds"

/-- The `catch` block's error-message translation ladder. -/
def rewriteTwilioError (m : String) : String :=
  if strIncludes m "timeout" then
    "Request timeout: The messaging service did not respond in time. Please try again."
  else if strIncludes m "Invalid" || strIncludes m "invalid" then
    "Invalid request: " ++ m ++ ". Please check phone number format and credentials."
  else if strIncludes m "Authentication" then
    "Authentication failed: Please check your Twilio credentials (TWILIO_ACCOUNT_SID and TWILIO_AUTH_TOKEN)."
  else if strIncludes m "not in allowed list" then
    "Phone number not in allowed list: The recipient number must be added to your Twilio allowed list for WhatsApp."
  else m

/-- `replace(/^whatsapp:/, "")`. -/
def dropWhatsAppScheme (s : String) : String :=
  if listPrefix ("whatsapp:" : String).data s.data then ⟨s.data.drop 9⟩ else s

/-- The hardened `sendWhatsAppMessageTwilio`. -/
def sendWhatsAppMessageTwilio (env : TwilioEnv)
    (create : String → String → String → TwilioOutcome) (dest message : String) :
    WhatsAppResponse :=
  if jsTrim dest = "" then ⟨false, none, some "Recipient phone number is required."⟩
  else if jsTrim message = "" then ⟨false, none, some "Message content is required."⟩
  else if 4096 < message.data.length then
    ⟨false, none, some ("Message is too long (" ++ toString message.data.length ++
      " characters). Maximum allowed is 4096 characters.")⟩
  else
    match getTwilioClient env with
    | Except.error m =>
        -- thrown by `getTwilioClient`, caught by the `catch` block
        ⟨false, none, some (rewriteTwilioError m)⟩
    | Except.ok whatsAppNumber =>
        let cleanTo := jsTrim ⟨dropLeadingPlus (dropWhatsAppScheme dest).data⟩
        if !(digitsLen cleanTo.data 10 15) then
          ⟨false, none, some ("Invalid phone number format: " ++ dest ++
            ". Expected 10-15 digits.")⟩
        else
          match create (jsTrim whatsAppNumber) ("whatsapp:" ++ jsTrim dest)
              (jsTake message 4096) with
          | TwilioOutcome.fault m => ⟨false, none, some (rewriteTwilioError m)⟩
          | TwilioOutcome.ok sid =>
              -- `if (!response || !response.sid)`
              if sid.getD "" = "" then
                ⟨false, none, some "Twilio returned an invalid response (missing message SID)."⟩
              else ⟨true, sid, none⟩

/-- The WhatsApp Cloud-API environment (`WHATSAPP_ACCESS_TOKEN`,
`WHATSAPP_PHONE_NUMBER_ID`, `WHATSAPP_API_VERSION`). -/
structure WhatsAppEnv where
  accessToken : Option String
  phoneNumberId : Option String
  apiVersion : Option String

/-- `getWhatsAppConfig`: throws on a missing/empty token or phone-number id
(the derived `baseUrl` is irrelevant to the embedded behavior). -/
def getWhatsAppConfig (env : WhatsAppEnv) : Except String Unit :=
  if jsFalsy env.accessToken then
    Except.error "WHATSAPP_ACCESS_TOKEN environment variable is required"
  else if jsFalsy env.phoneNumberId then
    Except.error "WHATSAPP_PHONE_NUMBER_ID environment variable is required"
  else Except.ok ()

/-- `data.error` of a webhook provider response. -/
structure ProviderErr where
  message : Option String
  code : Option Int
deriving DecidableEq

/-- The parsed JSON body of a webhook provider response.
`firstMessageId` is `data.messages?.[0]?.id`. -/
structure ProviderData where
  error : Option ProviderErr
  firstMessageId : Option String
deriving DecidableEq

/-- A resolved `fetch` response together with its parsed JSON body. -/
structure ProviderResp where
  ok : Bool
  status : Nat
  statusText : String
  data : ProviderData
deriving DecidableEq

/-- `` `HTTP ${response.status}: ${response.statusText}` ``. -/
def httpFallback (r : ProviderResp) : String :=
  "HTTP " ++ toString r.status ++ ": " ++ r.statusText

/-- `` data.error?.message || `HTTP ...` `` (an empty message is falsy). -/
def finalErrorMessage (r : ProviderResp) : String :=
  match r.data.error with
  | some e =>
      match e.message with
      | some m => if m = "" then httpFallback r else m
      | none => httpFallback r
  | none => httpFallback r

/-- `data.error?.code`. -/
def errCode (r : ProviderResp) : Option Int :=
  r.data.error.bind (fun e => e.code)

/-- The retry condition of the first attempt:
`!response.ok && data.error && (data.error.message?.includes("not in allowed list") || data.error.code === 131031)`. -/
def retryCond (r : ProviderResp) : Bool :=
  !r.ok &&
    (match r.data.error with
     | some e =>
        (match e.message with
         | some m => strIncludes m "not in allowed list"
         | none => false) || e.code == some 131031
     | none => false)

/-- `JSON.stringify(errorDetails)` (string escaping not modelled; an absent
`error` object renders as `undefined` in the template literal). -/
def stringifyErr : Option ProviderErr → String
  | none => "undefined"
  | some e =>
      "\x7b" ++
        joinSep ","
          ((match e.message with
            | some m => ["\"message\":\"" ++ m ++ "\""]
            | none => []) ++
           (match e.code with
            | some c => ["\"code\":" ++ toString c]
            | none => [])) ++ "\x7d"

/-- The consolidated allowed-list error message built by the webhook send
(the `+${phoneNumber}` interpolations are kept as `"+" ++ phoneNumber`). -/
def consolidatedMsg (phoneNumber : String) (errorDetails : Option ProviderErr) : String :=
  "Recipient number not in allowed list.\n\nNumber being sent to API: " ++ phoneNumber ++
  "\nNumber with + prefix: " ++ ("+" ++ phoneNumber) ++
  "\n\nIMPORTANT: Make sure this number is in your Meta allowed recipient list.\n\n" ++
  "In Meta Business Suite" ++
  ":\n1. Go to WhatsApp → API Setup → \"To\" field settings\n2. Add the number: " ++
  phoneNumber ++
  " (digits only, without + prefix)\n3. Meta UI may show it as " ++ ("+" ++ phoneNumber) ++
  ", but add it as " ++ phoneNumber ++
  "\n4. Wait a few minutes after adding before trying again\n\nNote: If your .env has a local format (e.g., 0792875310), it\x27s automatically converted to " ++
  phoneNumber ++
  "\n\nFull API error: " ++ stringifyErr errorDetails

/-- The `if (!response.ok)` tail of the webhook send, applied to whichever
response is current after the optional retry. -/
def webhookFinish (phoneNumber : String) (r : ProviderResp) : WhatsAppResponse :=
  if !r.ok then
    let errorMessage := finalErrorMessage r
    if strIncludes errorMessage "not in allowed list" || errCode r == some 131031 then
      ⟨false, none, some (consolidatedMsg phoneNumber r.data.error)⟩
    else ⟨false, none, some errorMessage⟩
  else ⟨true, r.data.firstMessageId, none⟩

/-- The destination the webhook send computes (the source's `to` argument,
renamed `dest` here): `to.replace(/[\s+\-()]/g, "").trim()`. -/
def cleanWebhookPhone (dest : String) : String := jsTrim ⟨stripPlusSeps dest⟩

/-- The hardened webhook `sendWhatsAppMessage`, instrumented with the list
of destinations actually sent to the provider (in order), so that the
retry discipline is visible.  `provider dest body` models one
`fetch` + `response.json()` round trip; `Except.error` is a rejected
promise caught by the function's `catch`. -/
def sendWhatsAppMessageAttempts (env : WhatsAppEnv)
    (provider : String → String → Except String ProviderResp) (dest message : String) :
    WhatsAppResponse × List String :=
  match getWhatsAppConfig env with
  | Except.error m => (⟨false, none, some m⟩, [])
  | Except.ok _ =>
      let phoneNumber := cleanWebhookPhone dest
      if !(digitsLen phoneNumber.data 10 15) then
        (⟨false, none, some ("Invalid phone number format: " ++ dest ++ " (cleaned to: " ++
          phoneNumber ++ "). Expected 10-15 digits in international format (e.g., 250792875310 for Rwanda).")⟩, [])
      else
        match provider phoneNumber message with
        | Except.error m => (⟨false, none, some m⟩, [phoneNumber])
        | Except.ok r1 =>
            if retryCond r1 then
              match provider ("+" ++ phoneNumber) message with
              | Except.error m => (⟨false, none, some m⟩, [phoneNumber, "+" ++ phoneNumber])
              | Except.ok r2 =>
                  (webhookFinish phoneNumber r2, [phoneNumber, "+" ++ phoneNumber])
            else (webhookFinish phoneNumber r1, [phoneNumber])

/-- The webhook `sendWhatsAppMessage` as the caller sees it. -/
def sendWhatsAppMessage (env : WhatsAppEnv)
    (provider : String → String → Except String ProviderResp) (dest message : String) :
    WhatsAppResponse :=
  (sendWhatsAppMessageAttempts env provider dest message).1

/-- The hardened `sendCustomerConfirmation`.  `send` is
`sendWhatsAppMessageTwilio` with its environment and SDK client fixed. -/
def sendCustomerConfirmation (parseDate : String → Option String)
    (send : String → String → WhatsAppResponse)
    (customerPhone customerName pickupDateTime : String) : WhatsAppResponse :=
  match normalizePhoneNumber customerPhone "250" with
  | none =>
      ⟨false, none, some ("Invalid customer phone number format: " ++ customerPhone ++
        ". Expected a valid international phone number (10-15 digits).")⟩
  | some normalizedPhoneNumber =>
      -- `const sanitizedName = (customerName || "").trim().substring(0, 100)`
      let sanitizedName := jsTake (jsTrim customerName) 100
      if sanitizedName = "" then
        ⟨false, none, some "Customer name is required and cannot be empty."⟩
      else
        let message := formatCustomerConfirmationMessage parseDate sanitizedName
          pickupDateTime
        if 4096 < message.data.length then
          ⟨false, none, some ("Confirmation message is too long (" ++
            toString message.data.length ++ " characters). Maximum allowed is 4096 characters.")⟩
        else send ("+" ++ normalizedPhoneNumber) message

/-- C10: with a valid customer phone, the name embedded in the confirmation
message is the input name trimmed and truncated to its first 100
characters; an empty or whitespace-only name yields `success = false` with
a descriptive error, and no send is attempted (the result is the same for
every possible `send` function). -/
theorem claim_C10_sendCustomerConfirmation (parseDate : String → Option String)
    (send : String → String → WhatsAppResponse)
    (phone name dt np : String) (hphone : normalizePhoneNumber phone "250" = some np) :
    (jsTrim name = "" →
      sendCustomerConfirmation parseDate send phone name dt =
        ⟨false, none, some "Customer name is required and cannot be empty."⟩) ∧
    (jsTrim name ≠ "" →
      (∃ a b, (formatCustomerConfirmationMessage parseDate (jsTake (jsTrim name) 100) dt).data =
        a ++ (jsTake (jsTrim name) 100).data ++ b) ∧
      ((formatCustomerConfirmationMessage parseDate (jsTake (jsTrim name) 100) dt).data.length ≤ 4096 →
        sendCustomerConfirmation parseDate send phone name dt =
          send ("+" ++ np)
            (formatCustomerConfirmationMessage parseDate (jsTake (jsTrim name) 100) dt))) := by
  have htake : ∀ s : String, (jsTake s 100 = "") ↔ s = "" := by
    intro s
    cases hs : s.data with
    | nil =>
      have : s = "" := by cases s with | mk d => cases hs; rfl
      simp [this, jsTake]
    | cons c cs =>
      constructor
      · intro h
        have := congrArg String.data h
        simp [jsTake, hs] at this
      · intro h
        subst h
        simp at hs
  constructor
  · intro hempty
    have hsan : jsTake (jsTrim name) 100 = "" := (htake (jsTrim name)).mpr hempty
    simp [sendCustomerConfirmation, hphone, hsan]
  · intro hne
    have hsan : jsTake (jsTrim name) 100 ≠ "" := fun h => hne ((htake (jsTrim name)).mp h)
    refine ⟨?_, ?_⟩
    · refine ⟨("✅ *Order Confirmed*\n\nHi " : String).data, ?_, ?_⟩
      · exact ("! 👋\n\nThank you for choosing LaundryPro! Your pickup order has been received.\n\n📅 *Scheduled Pickup:* " ++
          (if dt = "" then "your preferred time"
           else match parseDate dt with
                | none => dt
                | some rendered => rendered) ++
          "\n\nWe\x27ll send you a reminder before pickup. If you need to make any changes, please contact us.\n\nThank you! 🙏").data
      · simp [formatCustomerConfirmationMessage, data_append, List.append_assoc]
    · intro hlen
      have hdl : ∀ s : String, s.data.length = s.length := fun _ => rfl
      have hlen2 : ¬(4096 < (formatCustomerConfirmationMessage parseDate
          (jsTake (jsTrim name) 100) dt).length) := by
        rw [hdl] at hlen; omega
      simp [sendCustomerConfirmation, hphone, hsan, hlen2]

/-- Witness for C10: a whitespace-padded name over 100 characters long and
a valid phone, plus the empty-name rejection at a blank name. -/
theorem claim_C10_sendCustomerConfirmation_witness :
    sendCustomerConfirmation (fun _ => none) (fun d m => ⟨true, some (d ++ m), none⟩)
      "0792875310" "   " "" =
      ⟨false, none, some "Customer name is required and cannot be empty."⟩ :=
  (claim_C10_sendCustomerConfirmation (fun _ => none) (fun d m => ⟨true, some (d ++ m), none⟩)
    "0792875310" "   " "" "250792875310" (by decide)).1 (by decide)

/-- C4 counterexample: the webhook-based send, given an otherwise-"ok"
provider response with no message id (`data.messages` empty), returns
`success = true` with `messageId = none` — not the `success = false`
"invalid response (missing message id)" failure the claim requires of
every gateway send operation. -/
theorem claim_C4_counterexample :
    (sendWhatsAppMessage ⟨some "token", some "12345", none⟩
        (fun _ _ => Except.ok ⟨true, 200, "OK", ⟨none, none⟩⟩)
        "250792875310" "hello").success = true ∧
    (sendWhatsAppMessage ⟨some "token", some "12345", none⟩
        (fun _ _ => Except.ok ⟨true, 200, "OK", ⟨none, none⟩⟩)
        "250792875310" "hello").messageId = none := by
  decide

/-- C4 amended: the *Twilio-based* send treats a resolved response without
a truthy `sid` as a failure with the "invalid response (missing message
SID)" error, and its `success = true` results always carry a non-empty
provider `sid`; the webhook-based send instead copies
`data.messages?.[0]?.id` unchecked into `messageId` on any "ok"
response. -/
theorem claim_C4_missing_message_id (env : TwilioEnv)
    (create : String → String → String → TwilioOutcome) (dest msg : String)
    (wenv : WhatsAppEnv) (provider : String → String → Except String ProviderResp) :
    (∀ wn sid, jsTrim dest ≠ "" → jsTrim msg ≠ "" → msg.data.length ≤ 4096 →
      getTwilioClient env = Except.ok wn →
      digitsLen (jsTrim ⟨dropLeadingPlus (dropWhatsAppScheme dest).data⟩).data 10 15 = true →
      create (jsTrim wn) ("whatsapp:" ++ jsTrim dest) (jsTake msg 4096) =
        TwilioOutcome.ok sid →
      sid.getD "" = "" →
      sendWhatsAppMessageTwilio env create dest msg =
        ⟨false, none, some "Twilio returned an invalid response (missing message SID)."⟩) ∧
    (∀ r, sendWhatsAppMessageTwilio env create dest msg = r → r.success = true →
      ∃ s, r.messageId = some s ∧ s ≠ "") ∧
    (∀ r, getWhatsAppConfig wenv = Except.ok () →
      digitsLen (cleanWebhookPhone dest).data 10 15 = true →
      provider (cleanWebhookPhone dest) msg = Except.ok r → r.ok = true →
      sendWhatsAppMessage wenv provider dest msg = ⟨true, r.data.firstMessageId, none⟩) := by
  refine ⟨?_, ?_, ?_⟩
  · intro wn sid h1 h2 h3 hcfg hdig hcreate hsid
    have h3l : ¬(4096 < msg.data.length) := by omega
    have hdl : ∀ s : String, s.data.length = s.length := fun _ => rfl
    rw [hdl] at h3l
    simp [sendWhatsAppMessageTwilio, h1, h2, h3l, hcfg, hdig, hcreate, hsid]
  · intro r heq hs
    unfold sendWhatsAppMessageTwilio at heq
    repeat' split at heq
    all_goals subst heq
    all_goals simp_all
    all_goals split at hs
    all_goals simp_all
    rename_i sid _ _ _ hsid _
    cases sid with
    | none => simp at hsid
    | some s => exact ⟨s, rfl, by simpa using hsid⟩
  · intro r hcfg hdig hprov hok
    have hretry : retryCond r = false := by
      simp [retryCond, hok]
    simp [sendWhatsAppMessage, sendWhatsAppMessageAttempts, hcfg, hdig, hprov, hretry,
      webhookFinish, hok]

/-- Witness for C4's amended theorem: the missing-`sid` branch of the
Twilio send at concrete inputs. -/
theorem claim_C4_missing_message_id_witness :
    sendWhatsAppMessageTwilio ⟨some "sid", some "tok", some "+14155238886"⟩
        (fun _ _ _ => TwilioOutcome.ok none) "+250792875310" "hello" =
      ⟨false, none, some "Twilio returned an invalid response (missing message SID)."⟩ :=
  (claim_C4_missing_message_id ⟨some "sid", some "tok", some "+14155238886"⟩
      (fun _ _ _ => TwilioOutcome.ok none) "+250792875310" "hello"
      ⟨none, none, none⟩ (fun _ _ => Except.error "unused")).1
    "+14155238886" none (by decide) (by decide) (by decide) rfl (by decide)
    rfl (by decide)

/-- The webhook send never issues more than the one allowed-list retry. -/
theorem webhook_attempts_le_two (env : WhatsAppEnv)
    (provider : String → String → Except String ProviderResp) (dest msg : String) :
    (sendWhatsAppMessageAttempts env provider dest msg).2.length ≤ 2 := by
  unfold sendWhatsAppMessageAttempts
  cases getWhatsAppConfig env with
  | error m => simp
  | ok u =>
      simp only
      cases hdig : (!(digitsLen (cleanWebhookPhone dest).data 10 15)) with
      | true => simp [hdig]
      | false =>
          simp only [hdig, Bool.false_eq_true, if_false]
          cases provider (cleanWebhookPhone dest) msg with
          | error m => simp
          | ok r1 =>
              cases hr : retryCond r1 with
              | false => simp [hr]
              | true =>
                  simp only [hr, if_true]
                  cases provider ("+" ++ cleanWebhookPhone dest) msg with
                  | error m => simp
                  | ok r2 => simp

/-- The consolidated allowed-list message contains the plain destination,
the `+`-prefixed destination, and the remediation steps. -/
theorem consolidatedMsg_parts (p : String) (e : Option ProviderErr) :
    (∃ a b, (consolidatedMsg p e).data = a ++ p.data ++ b) ∧
    (∃ a b, (consolidatedMsg p e).data = a ++ ("+" ++ p).data ++ b) ∧
    (∃ a b, (consolidatedMsg p e).data =
      a ++ ("In Meta Business Suite" : String).data ++ b) := by
  refine ⟨⟨("Recipient number not in allowed list.\n\nNumber being sent to API: " : String).data,
      (("\nNumber with + prefix: " ++ ("+" ++ p) ++
        "\n\nIMPORTANT: Make sure this number is in your Meta allowed recipient list.\n\n" ++
        "In Meta Business Suite" ++
        ":\n1. Go to WhatsApp → API Setup → \"To\" field settings\n2. Add the number: " ++ p ++
        " (digits only, without + prefix)\n3. Meta UI may show it as " ++ ("+" ++ p) ++
        ", but add it as " ++ p ++
        "\n4. Wait a few minutes after adding before trying again\n\nNote: If your .env has a local format (e.g., 0792875310), it\x27s automatically converted to " ++
        p ++ "\n\nFull API error: " ++ stringifyErr e) : String).data, ?_⟩, ?_, ?_⟩
  · simp [consolidatedMsg, data_append, List.append_assoc]
  · refine ⟨(("Recipient number not in allowed list.\n\nNumber being sent to API: " ++ p ++
      "\nNumber with + prefix: ") : String).data,
      (("\n\nIMPORTANT: Make sure this number is in your Meta allowed recipient list.\n\n" ++
        "In Meta Business Suite" ++
        ":\n1. Go to WhatsApp → API Setup → \"To\" field settings\n2. Add the number: " ++ p ++
        " (digits only, without + prefix)\n3. Meta UI may show it as " ++ ("+" ++ p) ++
        ", but add it as " ++ p ++
        "\n4. Wait a few minutes after adding before trying again\n\nNote: If your .env has a local format (e.g., 0792875310), it\x27s automatically converted to " ++
        p ++ "\n\nFull API error: " ++ stringifyErr e) : String).data, ?_⟩
    simp [consolidatedMsg, data_append, List.append_assoc]
  · refine ⟨(("Recipient number not in allowed list.\n\nNumber being sent to API: " ++ p ++
      "\nNumber with + prefix: " ++ ("+" ++ p) ++
      "\n\nIMPORTANT: Make sure this number is in your Meta allowed recipient list.\n\n") : String).data,
      ((":\n1. Go to WhatsApp → API Setup → \"To\" field settings\n2. Add the number: " ++ p ++
        " (digits only, without + prefix)\n3. Meta UI may show it as " ++ ("+" ++ p) ++
        ", but add it as " ++ p ++
        "\n4. Wait a few minutes after adding before trying again\n\nNote: If your .env has a local format (e.g., 0792875310), it\x27s automatically converted to " ++
        p ++ "\n\nFull API error: " ++ stringifyErr e) : String).data, ?_⟩
    simp [consolidatedMsg, data_append, List.append_assoc]

/-- The provider of the C3 counterexample: the first attempt fails with
allowed-list error 131031; the `+`-prefixed retry fails with an unrelated
authentication error. -/
def c3Provider (d : String) (_body : String) : Except String ProviderResp :=
  if d = "250792875310" then
    Except.ok ⟨false, 400, "Bad Request",
      ⟨some ⟨some "recipient not in allowed list", some 131031⟩, none⟩⟩
  else
    Except.ok ⟨false, 401, "Unauthorized", ⟨some ⟨some "Authentication failed", none⟩, none⟩⟩

/-- C3 counterexample: the retry is issued and also fails, yet the returned
error is the retry's raw provider message `"Authentication failed"`, which
contains neither destination form nor any remediation steps — the
consolidated message is only produced when the *final* failure itself
matches the allowed-list condition. -/
theorem claim_C3_counterexample :
    sendWhatsAppMessageAttempts ⟨some "token", some "12345", none⟩ c3Provider
        "250792875310" "hello" =
      (⟨false, none, some "Authentication failed"⟩, ["250792875310", "+250792875310"]) ∧
    strIncludes "Authentication failed" "+250792875310" = false ∧
    strIncludes "Authentication failed" "250792875310" = false := by
  decide

/-- C3 amended: when the first webhook attempt fails with the allowed-list
condition, exactly one retry is issued at the `+`-prefixed destination and
no second retry ever occurs; if the retry resolves and also fails *with an
allowed-list condition*, the single consolidated error (containing both
destination forms and the remediation steps) is returned; a retry failing
with any other error surfaces that error's own message (or HTTP fallback)
alone. -/
theorem claim_C3_allowed_list_retry (wenv : WhatsAppEnv)
    (provider : String → String → Except String ProviderResp) (dest msg : String)
    (r1 : ProviderResp)
    (hcfg : getWhatsAppConfig wenv = Except.ok ())
    (hdig : digitsLen (cleanWebhookPhone dest).data 10 15 = true)
    (h1 : provider (cleanWebhookPhone dest) msg = Except.ok r1)
    (hretry : retryCond r1 = true) :
    ((sendWhatsAppMessageAttempts wenv provider dest msg).2 =
      [cleanWebhookPhone dest, "+" ++ cleanWebhookPhone dest]) ∧
    (∀ env2 prov2 dest2 msg2,
      (sendWhatsAppMessageAttempts env2 prov2 dest2 msg2).2.length ≤ 2) ∧
    (∀ r2, provider ("+" ++ cleanWebhookPhone dest) msg = Except.ok r2 → r2.ok = false →
      ((strIncludes (finalErrorMessage r2) "not in allowed list" ||
          errCode r2 == some 131031) = true →
        sendWhatsAppMessage wenv provider dest msg =
          ⟨false, none, some (consolidatedMsg (cleanWebhookPhone dest) r2.data.error)⟩ ∧
        (∃ a b, (consolidatedMsg (cleanWebhookPhone dest) r2.data.error).data =
          a ++ (cleanWebhookPhone dest).data ++ b) ∧
        (∃ a b, (consolidatedMsg (cleanWebhookPhone dest) r2.data.error).data =
          a ++ ("+" ++ cleanWebhookPhone dest).data ++ b) ∧
        (∃ a b, (consolidatedMsg (cleanWebhookPhone dest) r2.data.error).data =
          a ++ ("In Meta Business Suite" : String).data ++ b)) ∧
      ((strIncludes (finalErrorMessage r2) "not in allowed list" ||
          errCode r2 == some 131031) = false →
        sendWhatsAppMessage wenv provider dest msg =
          ⟨false, none, some (finalErrorMessage r2)⟩)) := by
  refine ⟨?_, fun env2 prov2 dest2 msg2 => webhook_attempts_le_two env2 prov2 dest2 msg2, ?_⟩
  · cases h2 : provider ("+" ++ cleanWebhookPhone dest) msg with
    | error m =>
        simp [sendWhatsAppMessageAttempts, hcfg, hdig, h1, hretry, h2]
    | ok r2 =>
        simp [sendWhatsAppMessageAttempts, hcfg, hdig, h1, hretry, h2]
  · intro r2 h2 hok
    constructor
    · intro hcond
      refine ⟨?_, (consolidatedMsg_parts _ _).1, (consolidatedMsg_parts _ _).2.1,
        (consolidatedMsg_parts _ _).2.2⟩
      simp [sendWhatsAppMessage, sendWhatsAppMessageAttempts, hcfg, hdig, h1, hretry, h2,
        webhookFinish, hok, hcond]
    · intro hcond
      simp [sendWhatsAppMessage, sendWhatsAppMessageAttempts, hcfg, hdig, h1, hretry, h2,
        webhookFinish, hok, hcond]

/-- The provider of the C3 witness: both attempts fail with the
allowed-list condition. -/
def c3WitnessProvider (_d : String) (_body : String) : Except String ProviderResp :=
  Except.ok ⟨false, 400, "Bad Request",
    ⟨some ⟨some "recipient not in allowed list", some 131031⟩, none⟩⟩

/-- Witness for C3's amended theorem: both attempts fail with the
allowed-list condition, and the consolidated message is returned. -/
theorem claim_C3_allowed_list_retry_witness :
    sendWhatsAppMessage ⟨some "token", some "12345", none⟩ c3WitnessProvider
        "250792875310" "hi" =
      ⟨false, none, some (consolidatedMsg (cleanWebhookPhone "250792875310")
        (some ⟨some "recipient not in allowed list", some 131031⟩))⟩ :=
  (((claim_C3_allowed_list_retry ⟨some "token", some "12345", none⟩ c3WitnessProvider
      "250792875310" "hi"
      ⟨false, 400, "Bad Request", ⟨some ⟨some "recipient not in allowed list", some 131031⟩, none⟩⟩
      rfl (by decide) rfl (by decide)).2.2
    ⟨false, 400, "Bad Request", ⟨some ⟨some "recipient not in allowed list", some 131031⟩, none⟩⟩
    rfl rfl).1 (by decide)).1

/-- The shape every gateway return site produces: a success carries no
error, a failure carries no message id and a non-empty error slot. -/
def wellFormed (r : WhatsAppResponse) : Prop :=
  (r.success = true ∧ r.error = none) ∨
  (r.success = false ∧ r.messageId = none ∧ r.error ≠ none)

/-- C6: both gateway send operations are total functions into
`WhatsAppResponse` — for every destination, body, configuration and
provider behavior (resolved success, structured error, the timeout
rejection, a thrown fault, or missing configuration) they return a
well-formed `MessagingResult`; a provider that always faults can never
yield success, the fault being absorbed by the `catch` boundary. -/
theorem claim_C6_gateway_never_throws (env : TwilioEnv)
    (create : String → String → String → TwilioOutcome)
    (wenv : WhatsAppEnv) (provider : String → String → Except String ProviderResp)
    (dest msg : String) :
    wellFormed (sendWhatsAppMessageTwilio env create dest msg) ∧
    wellFormed (sendWhatsAppMessage wenv provider dest msg) ∧
    (∀ m, (sendWhatsAppMessageTwilio env (fun _ _ _ => TwilioOutcome.fault m) dest msg).success
      = false) ∧
    (∀ m, (sendWhatsAppMessage wenv (fun _ _ => Except.error m) dest msg).success = false) := by
  refine ⟨?_, ?_, ?_, ?_⟩
  · unfold sendWhatsAppMessageTwilio wellFormed
    repeat' split
    all_goals try simp
    all_goals repeat' split
    all_goals simp
  · unfold sendWhatsAppMessage sendWhatsAppMessageAttempts webhookFinish wellFormed
    repeat' split
    all_goals try simp
    all_goals repeat' split
    all_goals simp
  · intro m
    unfold sendWhatsAppMessageTwilio
    repeat' split
    all_goals try simp_all
    all_goals repeat' split
    all_goals simp_all
  · intro m
    unfold sendWhatsAppMessage sendWhatsAppMessageAttempts webhookFinish
    repeat' split
    all_goals try simp_all
    all_goals repeat' split
    all_goals simp_all

/-! ## Order-intake handler (api/submit-order.ts, hardened version)

The request body is modelled as a JSON value (`reqBody = none` models a
missing body, replaced by `JSON.parse("{}") = {}` in the source; re-parsing
of raw-string bodies is outside the model).  The zod `safeParse` of
`orderSchema` is embedded by `zodValidate`; zod collects one issue list per
parse, but a *thrown* error — the source throws `new z.ZodError(...)`
inside the quantity `transform`, and zod does not catch user throws — is
modelled by a `thrown` outcome that the handler's outer `catch` turns into
the generic 500 response. -/

/-- A JSON value (numbers as rationals, so `z.number().int()` is
meaningful). -/
inductive Json where
  | str (s : String)
  | num (q : Rat)
  | bool (b : Bool)
  | null
  | arr (xs : List Json)
  | obj (fields : List (String × Json))

/-- Object field lookup. -/
def jget (fields : List (String × Json)) (k : String) : Option Json :=
  (fields.find? (fun p => p.1 == k)).map (fun p => p.2)

/-- zod's name for a received type. -/
def typeName : Json → String
  | Json.str _ => "string"
  | Json.num _ => "number"
  | Json.bool _ => "boolean"
  | Json.null => "null"
  | Json.arr _ => "array"
  | Json.obj _ => "object"

/-- One zod issue: a path and a message. -/
structure ZodIssue where
  path : List String
  message : String
deriving DecidableEq

/-- `z.string().min(1, minMsg)` on an optional field value. -/
def zstr (v : Option Json) (path : List String) (minMsg : String) :
    List ZodIssue × Option String :=
  match v with
  | none => ([⟨path, "Required"⟩], none)
  | some (Json.str s) =>
      if 1 ≤ s.data.length then ([], some s) else ([⟨path, minMsg⟩], none)
  | some j => ([⟨path, "Expected string, received " ++ typeName j⟩], none)

/-- `z.string().optional()` on an optional field value. -/
def zoptstr (v : Option Json) (path : List String) :
    List ZodIssue × Option (Option String) :=
  match v with
  | none => ([], some none)
  | some (Json.str s) => ([], some (some s))
  | some j => ([⟨path, "Expected string, received " ++ typeName j⟩], none)

/-- Leading decimal digits. -/
def leadingDigits (l : List Char) : List Char := l.takeWhile Char.isDigit

/-- Numeric value of a digit run. -/
def digitsVal (l : List Char) : Nat :=
  l.foldl (fun acc c => acc * 10 + (c.toNat - '0'.toNat)) 0

/-- `Number.parseInt(s, 10)`: skip leading whitespace, optional sign,
leading digit run; `NaN` (here `none`) when no digits follow. -/
def parseIntJS (s : String) : Option Int :=
  match s.data.dropWhile isJsWs with
  | '+' :: rest =>
      if leadingDigits rest = [] then none
      else some (Int.ofNat (digitsVal (leadingDigits rest)))
  | '-' :: rest =>
      if leadingDigits rest = [] then none
      else some (-(Int.ofNat (digitsVal (leadingDigits rest))))
  | rest =>
      if leadingDigits rest = [] then none
      else some (Int.ofNat (digitsVal (leadingDigits rest)))

/-- Result of parsing one `quantity` with
`z.number().int().positive(...).or(z.string().transform(...))`. -/
inductive QtyResult where
  | ok (n : Int)
  | issue (i : ZodIssue)
  | thrown (i : ZodIssue)

/-- The quantity union.  A number must be a positive integer (a failing
number falls through to the string branch, whose type check also fails, so
zod reports the union's `"Invalid input"`).  A string runs the `transform`,
which *throws* `new z.ZodError([{message: "Quantity must be a positive
integer", path: ["quantity"]}])` when `parseInt` yields `NaN` or a
non-positive value — zod does not catch user throws, so this escapes
`safeParse`. -/
def zQuantity (v : Option Json) (path : List String) : QtyResult :=
  match v with
  | none => QtyResult.issue ⟨path, "Required"⟩
  | some (Json.num q) =>
      if q.den = 1 ∧ 0 < q then QtyResult.ok q.num
      else QtyResult.issue ⟨path, "Invalid input"⟩
  | some (Json.str s) =>
      match parseIntJS s with
      | some n =>
          if 0 < n then QtyResult.ok n
          else QtyResult.thrown ⟨["quantity"], "Quantity must be a positive integer"⟩
      | none => QtyResult.thrown ⟨["quantity"], "Quantity must be a positive integer"⟩
  | some _ => QtyResult.issue ⟨path, "Invalid input"⟩

/-- Result of parsing the `items` array elementwise. -/
inductive ItemsResult where
  | ok (items : List OrderItem)
  | issues (errs : List ZodIssue)
  | thrown (i : ZodIssue)

/-- Parse the elements of `items` in order, collecting issues; a throw
during any element's quantity `transform` aborts the whole parse and
discards everything collected so far. -/
def zItems : List Json → Nat → ItemsResult
  | [], _ => ItemsResult.ok []
  | x :: rest, idx =>
      match x with
      | Json.obj fields =>
          let nm := zstr (jget fields "name") ["items", toString idx, "name"]
            "Item name is required"
          (match zQuantity (jget fields "quantity") ["items", toString idx, "quantity"] with
           | QtyResult.thrown i => ItemsResult.thrown i
           | QtyResult.issue qi =>
               (match zItems rest (idx + 1) with
                | ItemsResult.thrown t => ItemsResult.thrown t
                | ItemsResult.issues more => ItemsResult.issues (nm.1 ++ [qi] ++ more)
                | ItemsResult.ok _ => ItemsResult.issues (nm.1 ++ [qi]))
           | QtyResult.ok n =>
               (match nm.2 with
                | some nmv =>
                    (match zItems rest (idx + 1) with
                     | ItemsResult.thrown t => ItemsResult.thrown t
                     | ItemsResult.issues more => ItemsResult.issues more
                     | ItemsResult.ok items => ItemsResult.ok (⟨nmv, n⟩ :: items))
                | none =>
                    (match zItems rest (idx + 1) with
                     | ItemsResult.thrown t => ItemsResult.thrown t
                     | ItemsResult.issues more => ItemsResult.issues (nm.1 ++ more)
                     | ItemsResult.ok _ => ItemsResult.issues nm.1)))
      | j =>
          (match zItems rest (idx + 1) with
           | ItemsResult.thrown t => ItemsResult.thrown t
           | ItemsResult.issues more =>
               ItemsResult.issues
                 (⟨["items", toString idx], "Expected object, received " ++ typeName j⟩ :: more)
           | ItemsResult.ok _ =>
               ItemsResult.issues
                 [⟨["items", toString idx], "Expected object, received " ++ typeName j⟩])

/-- Outcome of `orderSchema.safeParse(body)`, with the extra `thrown` case
for the escaping `ZodError`. -/
inductive ZodOutcome where
  | ok (order : PickupOrderRequest)
  | issues (errs : List ZodIssue)
  | thrown (i : ZodIssue)

/-- `orderSchema.safeParse`: fields checked in schema key order, issues
collected across fields; the array's `min(1, "At least one item is
required")` size issue precedes element issues. -/
def zodValidate : Json → ZodOutcome
  | Json.obj fields =>
      let e1 := zstr (jget fields "customerName") ["customerName"] "Customer name is required"
      let e2 := zstr (jget fields "pickupAddress") ["pickupAddress"] "Pickup address is required"
      let e3 := zoptstr (jget fields "pickupDateTime") ["pickupDateTime"]
      let itemsRes :=
        match jget fields "items" with
        | none => ItemsResult.issues [⟨["items"], "Required"⟩]
        | some (Json.arr xs) =>
            let minIssues :=
              if xs.length < 1 then [⟨["items"], "At least one item is required"⟩]
              else ([] : List ZodIssue)
            (match zItems xs 0 with
             | ItemsResult.thrown t => ItemsResult.thrown t
             | ItemsResult.issues es => ItemsResult.issues (minIssues ++ es)
             | ItemsResult.ok its =>
                 (match minIssues with
                  | [] => ItemsResult.ok its
                  | _ => ItemsResult.issues minIssues))
        | some j => ItemsResult.issues [⟨["items"], "Expected array, received " ++ typeName j⟩]
      let e5 := zoptstr (jget fields "customerNotes") ["customerNotes"]
      let e6 := zoptstr (jget fields "customerPhone") ["customerPhone"]
      (match itemsRes with
       | ItemsResult.thrown t => ZodOutcome.thrown t
       | ItemsResult.issues e4 =>
           ZodOutcome.issues (e1.1 ++ e2.1 ++ e3.1 ++ e4 ++ e5.1 ++ e6.1)
       | ItemsResult.ok items =>
           (match e1.2, e2.2, e3.2, e5.2, e6.2 with
            | some cn, some pa, some pdt, some notes, some phone =>
                ZodOutcome.ok ⟨cn, pa, pdt, items, notes, phone⟩
            | _, _, _, _, _ =>
                ZodOutcome.issues (e1.1 ++ e2.1 ++ e3.1 ++ e5.1 ++ e6.1)))
  | j => ZodOutcome.issues [⟨[], "Expected object, received " ++ typeName j⟩]

/-- The `OrderSubmissionResponse` JSON body written by `res.json`. -/
structure OrderResponseBody where
  success : Bool
  orderId : Option String
  messageId : Option String
  message : Option String
  error : Option String
deriving DecidableEq

/-- Outcome of the `sendCustomerConfirmation` call as the handler sees it:
a resolved `WhatsAppResponse`, or a thrown fault (caught and logged). -/
inductive CustOutcome where
  | ok (r : WhatsAppResponse)
  | fault (msg : String)

/-- `` `${e.path.length > 0 ? e.path.join(".") : "root"}: ${e.message}` ``. -/
def renderIssue (i : ZodIssue) : String :=
  (match i.path with
   | [] => "root"
   | _ => joinSep "." i.path) ++ ": " ++ i.message

/-- `order.customerNotes ? order.customerNotes.trim() : undefined`. -/
def jsNotesTrim (notes : Option String) : Option String :=
  match notes with
  | some s => if s = "" then none else some (jsTrim s)
  | none => none

/-- The handler's post-validation sanitization of the parsed order. -/
def trimOrder (o : PickupOrderRequest) : PickupOrderRequest :=
  ⟨jsTrim o.customerName, jsTrim o.pickupAddress, o.pickupDateTime, o.items,
    jsNotesTrim o.customerNotes, o.customerPhone⟩

/-- The handler's per-item re-validation loop.  (`Number.isInteger` is
identically true on the already-coerced integer quantity, so only the
positivity test remains.) -/
def itemsCheck : List OrderItem → Nat → Option OrderResponseBody
  | [], _ => none
  | item :: rest, i =>
      if jsTrim item.name = "" then
        some ⟨false, none, none, none,
          some ("Item at index " ++ toString i ++ " has an empty or invalid name.")⟩
      else if item.quantity ≤ 0 then
        some ⟨false, none, none, none,
          some ("Item \"" ++ item.name ++ "\" has an invalid quantity. Must be a positive integer.")⟩
      else itemsCheck rest (i + 1)

/-- The hardened serverless `handler`.  `genId` is the value
`generateOrderId()` returns for this request; `sendDry` and `sendCust` are
`sendPickupOrderToDryCleaner` / `sendCustomerConfirmation` with their
environment fixed. -/
def handler (genId : String)
    (sendDry : PickupOrderRequest → WhatsAppResponse)
    (sendCust : String → String → String → CustOutcome)
    (method : String) (reqBody : Option Json) : Nat × OrderResponseBody :=
  if method ≠ "POST" then
    (405, ⟨false, none, none, none,
      some ("Method not allowed. Expected POST, got " ++ method ++ ".")⟩)
  else
    -- `if (!body || typeof body === "string") body = JSON.parse(body || "{}")`
    let body := reqBody.getD (Json.obj [])
    match body with
    | Json.obj _ =>
        (match zodValidate body with
         | ZodOutcome.thrown _ =>
             -- the ZodError thrown inside the quantity transform escapes
             -- `safeParse`; the outer catch answers with the generic 500
             (500, ⟨false, none, none, none,
               some "An unexpected server error occurred. Please try again or contact support."⟩)
         | ZodOutcome.issues errs =>
             (400, ⟨false, none, none, none,
               some ("Validation failed: " ++ joinSep ", " (errs.map renderIssue))⟩)
         | ZodOutcome.ok order0 =>
             let order := trimOrder order0
             if order.customerName = "" then
               (400, ⟨false, none, none, none,
                 some "Customer name is required and cannot be empty."⟩)
             else if order.pickupAddress = "" then
               (400, ⟨false, none, none, none,
                 some "Pickup address is required and cannot be empty."⟩)
             else if order.items = [] then
               (400, ⟨false, none, none, none,
                 some "At least one item is required in the order."⟩)
             else
               match itemsCheck order.items 0 with
               | some resp => (400, resp)
               | none =>
                   let orderId := genId
                   let dry := sendDry order
                   if dry.success = false then
                     (500, ⟨false, some orderId, none, none,
                       some ("Failed to send order notification. Please contact support with order ID: "
                         ++ orderId)⟩)
                   else
                     -- non-critical customer confirmation: failures and
                     -- faults are logged; `customerMessageId` is computed
                     -- but never used in the response
                     let _customerMessageId : Option String :=
                       match order.customerPhone with
                       | some p =>
                           if p ≠ "" then
                             (match sendCust p order.customerName
                                 (order.pickupDateTime.getD "") with
                              | CustOutcome.ok r => if r.success then r.messageId else none
                              | CustOutcome.fault _ => none)
                           else none
                       | none => none
                     (200, ⟨true, some orderId, dry.messageId,
                       some "Order submitted successfully", none⟩))
    | _ => (400, ⟨false, none, none, none, some "Request body must be a valid JSON object."⟩)

/-- C1: for every request that passes validation, when the dry-cleaner send
returns `success = false` the handler answers 500 with a body carrying the
generated order id and the fixed support-contact message — the right-hand
side mentions neither the provider's error `e` nor the `sendCust` function,
so no provider error text can reach the client. -/
theorem claim_C1_dry_cleaner_failure (genId : String)
    (sendDry : PickupOrderRequest → WhatsAppResponse)
    (sendCust : String → String → String → CustOutcome)
    (fields : List (String × Json)) (order0 : PickupOrderRequest)
    (mid e : Option String)
    (hv : zodValidate (Json.obj fields) = ZodOutcome.ok order0)
    (h1 : jsTrim order0.customerName ≠ "")
    (h2 : jsTrim order0.pickupAddress ≠ "")
    (h3 : order0.items ≠ [])
    (h4 : itemsCheck order0.items 0 = none)
    (hd : sendDry (trimOrder order0) = ⟨false, mid, e⟩) :
    handler genId sendDry sendCust "POST" (some (Json.obj fields)) =
      (500, ⟨false, some genId, none, none,
        some ("Failed to send order notification. Please contact support with order ID: "
          ++ genId)⟩) := by
  have hd2 := hd
  simp only [trimOrder] at hd2
  simp [handler, hv, trimOrder, h1, h2, h3, h4, hd2]

/-- Witness for C1: a concrete valid order whose dry-cleaner send fails
with a raw provider error; the response is the fixed 500 body. -/
theorem claim_C1_dry_cleaner_failure_witness :
    handler "ORD-1" (fun _ => ⟨false, none, some "Twilio exploded: auth token rejected"⟩)
        (fun _ _ _ => CustOutcome.fault "unreached")
        "POST" (some (Json.obj [("customerName", Json.str "Alice"),
          ("pickupAddress", Json.str "KG 5 Ave"),
          ("items", Json.arr [Json.obj [("name", Json.str "Shirt"), ("quantity", Json.num 2)]]),
          ("customerPhone", Json.str "0792875310")])) =
      (500, ⟨false, some "ORD-1", none, none,
        some ("Failed to send order notification. Please contact support with order ID: "
          ++ "ORD-1")⟩) :=
  claim_C1_dry_cleaner_failure "ORD-1"
    (fun _ => ⟨false, none, some "Twilio exploded: auth token rejected"⟩)
    (fun _ _ _ => CustOutcome.fault "unreached")
    [("customerName", Json.str "Alice"), ("pickupAddress", Json.str "KG 5 Ave"),
     ("items", Json.arr [Json.obj [("name", Json.str "Shirt"), ("quantity", Json.num 2)]]),
     ("customerPhone", Json.str "0792875310")]
    ⟨"Alice", "KG 5 Ave", none, [⟨"Shirt", 2⟩], none, some "0792875310"⟩
    none (some "Twilio exploded: auth token rejected")
    rfl (by decide) (by decide) (by decide) rfl rfl

/-- C5: for every request that passes validation and carries a non-empty
customer phone, when the dry-cleaner send succeeds the handler answers 200
with `success: true`, the order id and the dry-cleaner `messageId`,
whatever the customer-confirmation send does — including returning
`success = false` or throwing. -/
theorem claim_C5_customer_failure_still_200 (genId : String)
    (sendDry : PickupOrderRequest → WhatsAppResponse)
    (sendCust : String → String → String → CustOutcome)
    (fields : List (String × Json)) (order0 : PickupOrderRequest)
    (mid e : Option String) (p : String)
    (hv : zodValidate (Json.obj fields) = ZodOutcome.ok order0)
    (h1 : jsTrim order0.customerName ≠ "")
    (h2 : jsTrim order0.pickupAddress ≠ "")
    (h3 : order0.items ≠ [])
    (h4 : itemsCheck order0.items 0 = none)
    (hd : sendDry (trimOrder order0) = ⟨true, mid, e⟩)
    (_hp : order0.customerPhone = some p) (_hpne : p ≠ "")
    (_hfail : (∃ f, sendCust p (jsTrim order0.customerName)
          (order0.pickupDateTime.getD "") = CustOutcome.fault f) ∨
      (∃ m2 e2, sendCust p (jsTrim order0.customerName)
          (order0.pickupDateTime.getD "") = CustOutcome.ok ⟨false, m2, e2⟩)) :
    handler genId sendDry sendCust "POST" (some (Json.obj fields)) =
      (200, ⟨true, some genId, mid, some "Order submitted successfully", none⟩) := by
  have hd2 := hd
  simp only [trimOrder] at hd2
  simp [handler, hv, trimOrder, h1, h2, h3, h4, hd2]

/-- Witness for C5: a concrete valid order with a customer phone whose
confirmation send fails; the response is still the 200 success body. -/
theorem claim_C5_customer_failure_still_200_witness :
    handler "ORD-2" (fun _ => ⟨true, some "SID-77", none⟩)
        (fun _ _ _ => CustOutcome.ok ⟨false, none, some "customer send failed"⟩)
        "POST" (some (Json.obj [("customerName", Json.str "Alice"),
          ("pickupAddress", Json.str "KG 5 Ave"),
          ("items", Json.arr [Json.obj [("name", Json.str "Shirt"), ("quantity", Json.num 2)]]),
          ("customerPhone", Json.str "0792875310")])) =
      (200, ⟨true, some "ORD-2", some "SID-77", some "Order submitted successfully", none⟩) :=
  claim_C5_customer_failure_still_200 "ORD-2"
    (fun _ => ⟨true, some "SID-77", none⟩)
    (fun _ _ _ => CustOutcome.ok ⟨false, none, some "customer send failed"⟩)
    [("customerName", Json.str "Alice"), ("pickupAddress", Json.str "KG 5 Ave"),
     ("items", Json.arr [Json.obj [("name", Json.str "Shirt"), ("quantity", Json.num 2)]]),
     ("customerPhone", Json.str "0792875310")]
    ⟨"Alice", "KG 5 Ave", none, [⟨"Shirt", 2⟩], none, some "0792875310"⟩
    (some "SID-77") none "0792875310"
    rfl (by decide) (by decide) (by decide) rfl rfl rfl (by decide)
    (Or.inr ⟨none, some "customer send failed", rfl⟩)

/-- C7 body with a non-numeric string quantity: the hand-thrown `ZodError`
escapes `safeParse`, so the handler's outer catch yields the generic 500,
not a 400 validation response. -/
def c7BadQuantityBody : Json :=
  Json.obj [("customerName", Json.str "Alice"), ("pickupAddress", Json.str "KG 5 Ave"),
    ("items", Json.arr [Json.obj [("name", Json.str "Shirt"), ("quantity", Json.str "abc")]])]

/-- C7 body with `items: []`. -/
def c7EmptyItemsBody : Json :=
  Json.obj [("customerName", Json.str "Alice"), ("pickupAddress", Json.str "KG 5 Ave"),
    ("items", Json.arr [])]

/-- C7: evaluation of the handler at the two decisive inputs.  `items: []`
is indeed rejected 400 with a field-path-qualified message mentioning
"At least one item"; but an item whose string quantity does not parse to a
positive integer is answered 500 with the generic unexpected-error message
(the `throw new z.ZodError` inside the quantity `transform` is not caught
by zod's `safeParse`), contradicting the claim that every violation gets a
400. -/
theorem claim_C7_validation_divergence :
    handler "ORD-TEST" (fun _ => ⟨true, some "SID", none⟩)
        (fun _ _ _ => CustOutcome.fault "unused") "POST" (some c7BadQuantityBody) =
      (500, ⟨false, none, none, none,
        some "An unexpected server error occurred. Please try again or contact support."⟩) ∧
    handler "ORD-TEST" (fun _ => ⟨true, some "SID", none⟩)
        (fun _ _ _ => CustOutcome.fault "unused") "POST" (some c7EmptyItemsBody) =
      (400, ⟨false, none, none, none,
        some "Validation failed: items: At least one item is required"⟩) ∧
    strIncludes "Validation failed: items: At least one item is required"
      "At least one item" = true := by
  refine ⟨rfl, rfl, by decide⟩

end LaundryPro
